import Mathlib

/-!
Verification of the command queue, watchdog, activity classifier and status
normalizer of the Kia/Hyundai Homey car driver (`src/drivers/car/device.js`).

The JavaScript is shallowly embedded: JS numbers are modelled as `ℚ`,
possibly-`undefined` values as `Option`, JS exceptions as `Except`, and the
asynchronous `runQueue` consumption loop as a fuel-indexed step function.
Line numbers in the doc comments refer to `src/drivers/car/device.js`.
-/

set_option autoImplicit false

namespace CarDevice

/-! ### Command queue (`setupQueue`, device.js lines 110-225) -/

/-- Script for what the remote vehicle client does when a queued command is
executed (device.js lines 180-206): the call either resolves, or rejects with
an error whose message matches the retry codes `resCode 4002/4004` (in which
case the code retries once, successfully or not), or rejects with any other
error. -/
inductive ExecResult
  | success
  | failRetryableOk
  | failRetryableFail
  | failOther
deriving DecidableEq, Repr

/-- A queued item `{ command, args }` (args are opaque and omitted), bundled
with the scripted outcome of executing it against the vehicle client. -/
structure QItem where
  command : String
  result : ExecResult
deriving DecidableEq, Repr

/-- JS array write `arr[i] = v`: a write past the current length implicitly
pads the array with undefined slots. -/
def writeSlot : List (Option QItem) → Nat → Option QItem → List (Option QItem)
  | [], 0, v => [v]
  | [], n + 1, v => none :: writeSlot [] n v
  | _ :: t, 0, v => v :: t
  | h :: t, n + 1, v => h :: writeSlot t n v

/-- JS array read `arr[i]`: out of bounds or a `delete`d slot reads as
undefined. -/
def readSlot : List (Option QItem) → Nat → Option QItem
  | [], _ => none
  | h :: _, 0 => h
  | _ :: t, n + 1 => readSlot t n

/-- The queue slot table of one device: `this.queue`, `this.head`,
`this.tail` (device.js lines 112-114). -/
structure QueueState where
  queue : List (Option QItem)
  head : Nat
  tail : Nat
deriving DecidableEq, Repr

/-- Number of pending commands, `this.tail - this.head`. -/
def QueueState.size (q : QueueState) : Nat := q.tail - q.head

/-- The function `enQueue` (device.js lines 116-132): dropped when the device is disabled;
dropped with a logged `queue overflow` when `this.tail >= 10` (note: the guard
is on `tail`, not on `tail - head`); otherwise the item is written at `tail`
and `tail` is incremented.  The loop-starting side effect of `enQueue` is
modelled separately in `runQueueStep`. -/
def enQueueQ (disabled : Bool) (item : QItem) (q : QueueState) : QueueState :=
  if disabled = true then q
  else if 10 ≤ q.tail then q
  else { q with queue := writeSlot q.queue q.tail (some item), tail := q.tail + 1 }

/-- The function `deQueue` (device.js lines 133-145): yields undefined on an empty table;
otherwise reads the slot at `head`, deletes it, advances `head`, and resets
both indices to 0 when `head` catches up with `tail` (the code's
`this.head === this.tail` check after the increment is inlined here as
`head + 1 = tail`). -/
def deQueueQ (q : QueueState) : Option QItem × QueueState :=
  if q.tail - q.head = 0 then (none, q)
  else if q.head + 1 = q.tail then
    (readSlot q.queue q.head, { queue := writeSlot q.queue q.head none, head := 0, tail := 0 })
  else
    (readSlot q.queue q.head,
     { queue := writeSlot q.queue q.head none, head := q.head + 1, tail := q.tail })

/-- The pending slots of the queue, in dequeue order (indices
`head, head+1, ..., tail-1`). -/
def contents (q : QueueState) : List (Option QItem) :=
  (List.range q.size).map fun i => readSlot q.queue (q.head + i)

/-- Well-formedness of the slot table as maintained by the code: `head` never
passes `tail` and every pending slot actually holds an item. -/
def QueueWF (q : QueueState) : Prop :=
  q.head ≤ q.tail ∧ ∀ i, i < q.tail → q.head ≤ i → (readSlot q.queue i).isSome = true

instance (q : QueueState) : Decidable (QueueWF q) := by
  unfold QueueWF; infer_instance

/-! ### Device state and the `runQueue` consumption loop
(device.js lines 153-224) -/

/-- The mutable device fields touched by `runQueue`.  `hasVehicle` models
`this.vehicle && this.vehicle.vehicleConfig` (an authenticated vehicle
session), `fixChargerRecent` abstracts the time comparison
`(Date.now() - this.fixChargerStateTime) < 30 * 1000`, and `pollOutcome`
scripts the outcome of the poll that `runQueue` auto-enqueues on drain. -/
structure DevState where
  qs : QueueState
  watchDogCounter : Int
  queueRunning : Bool
  busy : Bool
  lastCommand : Option String
  hasVehicle : Bool
  fixChargerRecent : Bool
  disabled : Bool
  pollOutcome : ExecResult
deriving DecidableEq, Repr

/-- One pass of the `runQueue` loop (device.js lines 153-224).  Returns the
state after the pass together with whether the loop re-invokes itself:

* an item with no vehicle session decrements the watchdog by 2 and throws
  (lines 159-161); the catch block (lines 219-223) clears the
  running/busy flags and the loop is not re-invoked;
* an executed item resets the watchdog to 6 on success or on a successful
  one-shot retry of the `4002`/`4004` codes, and decrements it by 1 on any
  unrecovered failure (lines 180-206); afterwards the loop re-invokes
  itself (line 208);
* an empty queue clears the flags and, unless the last executed command was
  itself `doPoll` or the stop-charge cooldown applies, enqueues a synthetic
  `doPoll`; that `enQueue` re-starts the loop (lines 209-218 and 127-131)
  unless it drops the item (disabled device or `tail >= 10`). -/
def runQueueStep (s0 : DevState) : DevState × Bool :=
  let s := { s0 with busy := true, queueRunning := true }
  match deQueueQ s.qs with
  | (some item, qs') =>
    if s.hasVehicle = false then
      ({ s with qs := qs', watchDogCounter := s.watchDogCounter - 2,
                queueRunning := false, busy := false }, false)
    else
      let s1 := { s with qs := qs', lastCommand := some item.command }
      match item.result with
      | .success => ({ s1 with watchDogCounter := 6 }, true)
      | .failRetryableOk => ({ s1 with watchDogCounter := 6 }, true)
      | .failRetryableFail =>
        ({ s1 with watchDogCounter := s1.watchDogCounter - 1, busy := false }, true)
      | .failOther =>
        ({ s1 with watchDogCounter := s1.watchDogCounter - 1, busy := false }, true)
  | (none, qs') =>
    let s1 := { s with qs := qs', queueRunning := false, busy := false }
    if s1.lastCommand ≠ some "doPoll"
        ∧ ¬(s1.lastCommand = some "stopCharge" ∨ s1.fixChargerRecent = true) then
      if s1.disabled = true then (s1, false)
      else if 10 ≤ s1.qs.tail then (s1, false)
      else ({ s1 with qs := enQueueQ false ⟨"doPoll", s1.pollOutcome⟩ s1.qs,
                      queueRunning := true }, true)
    else (s1, false)

/-- The `runQueue` loop run to completion, with explicit fuel standing in for
the asynchronous self-re-invocation (device.js line 208). -/
def runQueueFuel : Nat → DevState → DevState
  | 0, s => s
  | n + 1, s =>
    match runQueueStep s with
    | (s', true) => runQueueFuel n s'
    | (s', false) => s'

/-! ### Concrete states used by the witnesses and counterexamples -/

/-- The empty queue as initialized by `setupQueue`. -/
def q0 : QueueState := ⟨[], 0, 0⟩

def lockSuccess : QItem := ⟨"lock", .success⟩

/-- Ten successful enqueues into the fresh queue. -/
def c2full : QueueState := (List.range 10).foldl (fun q _ => enQueueQ false lockSuccess q) q0

/-- One dequeue after the ten enqueues: nine pending commands remain. -/
def c2afterDeq : QueueState := (deQueueQ c2full).2

/-- A one-slot queue used by witnesses. -/
def c2one : QueueState := ⟨[some lockSuccess], 0, 1⟩

/-- A device state around a given queue, as left by `initvalues` and
`setupQueue` (watchdog 6, idle flags, no last command). -/
def baseDev (qs : QueueState) (hasVehicle : Bool) : DevState :=
  { qs := qs, watchDogCounter := 6, queueRunning := false, busy := false,
    lastCommand := none, hasVehicle := hasVehicle, fixChargerRecent := false,
    disabled := false, pollOutcome := .success }

/-- One pending `lock` command, session present. -/
def c1state : DevState := baseDev (enQueueQ false lockSuccess q0) true

/-- Two pending commands (`lock`, then `doPoll`), but no vehicle session. -/
def c3state : DevState :=
  baseDev (enQueueQ false ⟨"doPoll", .success⟩ (enQueueQ false lockSuccess q0)) false

/-- Two pending commands that both fail, session present. -/
def c3stateOk : DevState :=
  baseDev (enQueueQ false ⟨"unlock", .failOther⟩
    (enQueueQ false ⟨"lock", .failRetryableFail⟩ q0)) true

/-! ### JS truthiness helpers -/

/-- Truthiness of a possibly-undefined JS boolean. -/
def truthyB : Option Bool → Bool
  | some b => b
  | none => false

/-- Truthiness of a possibly-undefined JS number (0 and undefined are falsy). -/
def truthyQ : Option ℚ → Bool
  | some v => decide (v ≠ 0)
  | none => false

/-- Truthiness of a possibly-undefined JS small integer. -/
def truthyNatOpt : Option Nat → Bool
  | some n => decide (n ≠ 0)
  | none => false

/-- Truthiness of a possibly-undefined JS string (the empty string is falsy). -/
def truthyStr : Option String → Bool
  | some s => decide (s ≠ "")
  | none => false

/-- JS `!x` for a possibly-undefined number. -/
def jsFalsyQ (v : Option ℚ) : Bool := !truthyQ v

/-- JS `x > 0` (false when `x` is undefined, as `undefined > 0` is false). -/
def numGtZero : Option ℚ → Bool
  | some v => decide (v > 0)
  | none => false

/-- JS `x > t` for a possibly-undefined number. -/
def gtOptQ : Option ℚ → ℚ → Bool
  | some v, t => decide (v > t)
  | none, _ => false

/-- JS `x < t` for a possibly-undefined number (`undefined < t` is false). -/
def ltOptQ : Option ℚ → ℚ → Bool
  | some v, t => decide (v < t)
  | none, _ => false

/-- JS `Math.abs(a - b) > t` where either coordinate may be undefined: a
subtraction involving undefined is NaN and every NaN comparison is false. -/
def absDiffGt (a b : Option ℚ) (t : ℚ) : Bool :=
  match a, b with
  | some x, some y => decide (|x - y| > t)
  | _, _ => false

/-- JS `a || b` on possibly-undefined numbers: the first operand if truthy,
otherwise the second. -/
def jsOrQ (a b : Option ℚ) : Option ℚ := if truthyQ a then a else b

/-! ### EV charging-state decoding (device.js lines 548-559 and 596-608) -/

inductive EvChargingState
  | plugged_in_charging
  | plugged_in
  | plugged_out
deriving DecidableEq, Repr

/-- Legacy-schema decoding (device.js lines 549-559): `charger` is
`sts?.evStatus?.batteryPlugin`, recoded by `+2` when a connector is engaged
but `batteryCharge` is falsy, then compared with `=== 1 ... === 4`. -/
def evChargeStateLegacy (batteryPlugin : Option Nat) (chargeTruthy : Bool) : EvChargingState :=
  let charger := if truthyNatOpt batteryPlugin && !chargeTruthy
                 then batteryPlugin.map (· + 2) else batteryPlugin
  if charger = some 1 ∨ charger = some 2 then .plugged_in_charging
  else if charger = some 3 ∨ charger = some 4 then .plugged_in
  else .plugged_out

/-- Current-schema decoding (device.js lines 598-608): identical logic over
`Green.ChargingInformation.ConnectorFastening.State` and the truthiness of
`Charging.RemainTime`. -/
def evChargeStateCCS2 (connectorState : Option Nat) (chargeTruthy : Bool) : EvChargingState :=
  let charger := if truthyNatOpt connectorState && !chargeTruthy
                 then connectorState.map (· + 2) else connectorState
  if charger = some 1 ∨ charger = some 2 then .plugged_in_charging
  else if charger = some 3 ∨ charger = some 4 then .plugged_in
  else .plugged_out

/-! ### Speed normalization (device.js lines 538-539 and 588-589) -/

/-- Legacy-full path: `map.measure_speed = speed > 255 ? 0 : speed`. -/
def mapSpeedLegacy (speed : Option ℚ) : Option ℚ :=
  if gtOptQ speed 255 then some 0 else speed

/-- Current path: `map.measure_speed = speed > 255 ? 0 : speed`. -/
def mapSpeedCCS2 (speed : Option ℚ) : Option ℚ :=
  if gtOptQ speed 255 then some 0 else speed

/-! ### Odometer repair (device.js line 436) -/

/-- A tiny JS value model: enough to express that spreading a number into an
object literal yields an empty object. -/
inductive JsVal
  | num (v : ℚ)
  | obj (fields : List (String × ℚ))
  | undef
deriving DecidableEq, Repr

/-- JS truthiness of a `JsVal` (0 and undefined falsy, every object truthy). -/
def JsVal.truthy : JsVal → Bool
  | .num v => decide (v ≠ 0)
  | .obj _ => true
  | .undef => false

/-- JS object spread `{ ...v }`: copies the own enumerable properties of
`ToObject(v)`; numbers and undefined contribute none, so the result is `{}`. -/
def JsVal.spreadIntoObj : JsVal → JsVal
  | .obj fs => .obj fs
  | _ => .obj []

/-- device.js line 436:
`if (!stsMapped.measure_odo) stsMapped.measure_odo = { ...this?.lastStatus?.measure_odo };`
applied to the current mapped odometer and the previous canonical record's
odometer. -/
def repairOdo (cur prev : JsVal) : JsVal :=
  if cur.truthy then cur else prev.spreadIntoObj

/-! ### Legacy `closed_locked` (device.js line 565) -/

/-- The reduce over `Object.keys(sts.doorOpen)` on line 565:
`reduce((closedAccu, door) => closedAccu || !sts.doorOpen[door], true)`.
Door map values are JS numbers (0 = closed). -/
def doorsReduceClosed (doorOpen : List (String × ℚ)) : Bool :=
  doorOpen.foldl (fun closedAccu door => closedAccu || decide (door.2 = 0)) true

/-- The full line-565 expression
`sts.doorLock && !sts.trunkOpen && !sts.hoodOpen && Object.keys(sts.doorOpen).reduce(...)`
for a payload in which all four fields are present. -/
def closedLockedLegacy (doorLock trunkOpen hoodOpen : Bool)
    (doorOpen : List (String × ℚ)) : Bool :=
  doorLock && !trunkOpen && !hoodOpen && doorsReduceClosed doorOpen

/-! ### Activity classifier (device.js lines 655-673) -/

/-- The canonical-record fields consulted by `isMoving` and `isParking`.
`engine` models the truthiness of `info.engine`. -/
structure StatusInfo where
  measure_speed : Option ℚ
  latitude : Option ℚ
  longitude : Option ℚ
  engine : Bool
deriving DecidableEq, Repr

/-- The classifier `isMoving` (device.js lines 655-663): `previousLocation` is the stored
`latitude`/`longitude` capability pair; the guard is
`!info.measure_speed || !previousLocation.latitude`. -/
def isMoving (prevLat prevLon : Option ℚ) (info : StatusInfo) : Bool :=
  if jsFalsyQ info.measure_speed || jsFalsyQ prevLat then false
  else numGtZero info.measure_speed
       || (absDiffGt info.latitude prevLat (1/10000)
           || absDiffGt info.longitude prevLon (1/10000))

/-- The classifier `isParking` (device.js lines 665-673): parked when the engine is off, and
newly parked when displaced more than 0.0003 degrees from the stored park
location on either axis. -/
def isParking (parkLat parkLon : Option ℚ) (info : StatusInfo) : Bool :=
  if info.engine then false
  else absDiffGt info.latitude parkLat (3/10000)
       || absDiffGt info.longitude parkLon (3/10000)

/-- Modelled from the wording of claim C7, not from the source: false only
when no previous coordinates exist (including previous coordinates `{0,0}`)
or the current speed is absent; otherwise true exactly when speed > 0 or the
displacement exceeds 0.0001 degrees in either axis. -/
def isMovingClaimSpec (prevLat prevLon : Option ℚ) (info : StatusInfo) : Bool :=
  match info.measure_speed, prevLat, prevLon with
  | some s, some plat, some plon =>
    if plat = 0 ∧ plon = 0 then false
    else decide (s > 0) || (absDiffGt info.latitude (some plat) (1/10000)
         || absDiffGt info.longitude (some plon) (1/10000))
  | _, _, _ => false

/-- Modelled from the amended wording of claim C7, not from the source:
false when the previous latitude is absent or zero (the longitude is not
consulted by the guard) or the current speed is absent or zero; otherwise
true exactly when speed > 0 or the displacement exceeds 0.0001 degrees in
either axis (comparisons with a missing coordinate count as no
displacement). -/
def isMovingAmendedSpec (prevLat prevLon : Option ℚ) (info : StatusInfo) : Bool :=
  match info.measure_speed, prevLat with
  | none, _ => false
  | some _, none => false
  | some s, some plat =>
    if s = 0 ∨ plat = 0 then false
    else decide (s > 0) || (absDiffGt info.latitude (some plat) (1/10000)
         || absDiffGt info.longitude prevLon (1/10000))

/-- The concrete record refuting claim C7: present speed 0, previous
coordinates (1,1), current coordinates (2,2). -/
def c7info : StatusInfo := ⟨some 0, some 2, some 2, false⟩

/-- The concrete record refuting claim C8: positive speed, unchanged
coordinates. -/
def c8rec : StatusInfo := ⟨some 5, some 1, some 1, false⟩

/-! ### Legacy-simple status normalization (device.js lines 529-532, 547-582)

Raw payload shapes are modelled with `Option` fields; reads that throw a
`TypeError` in JS (property access on undefined) are modelled in `Except`. -/

inductive JsErr
  | typeError
deriving DecidableEq, Repr

/-- An object with a `value` field (`airTemp`, `dte`, `totalAvailableRange`). -/
structure ValueObj where
  value : Option ℚ
deriving DecidableEq, Repr

structure RangeByFuel where
  totalAvailableRange : Option ValueObj
deriving DecidableEq, Repr

structure DrvDistEntry where
  rangeByFuel : Option RangeByFuel
deriving DecidableEq, Repr

structure SOCEntry where
  plugType : Option Nat
  targetSOClevel : Option ℚ
deriving DecidableEq, Repr

structure ReservChargeInfos where
  targetSOClist : Option (List SOCEntry)
deriving DecidableEq, Repr

structure EvStatusObj where
  batteryCharge : Option Bool
  batteryPlugin : Option Nat
  batteryStatus : Option ℚ
  drvDistance : Option (List DrvDistEntry)
  reservChargeInfos : Option ReservChargeInfos
deriving DecidableEq, Repr

structure TirePressureLampObj where
  tirePressureLampAll : Option ℚ
deriving DecidableEq, Repr

structure BatteryObj where
  batSoc : Option ℚ
deriving DecidableEq, Repr

/-- A raw payload of the legacy-simple shape: it has a `time` field and none
of the `vehicleStatus` / `Date` discriminators, so `mapStatus` runs exactly
the `if (sts.time)` block on it (lines 547-582). -/
structure LegacyStatus where
  time : Option String
  airCtrlOn : Option Bool
  airTemp : Option ValueObj
  doorLock : Option Bool
  defrost : Option Bool
  engine : Option Bool
  trunkOpen : Option Bool
  hoodOpen : Option Bool
  doorOpen : Option (List (String × ℚ))
  tirePressureLamp : Option TirePressureLampObj
  battery : Option BatteryObj
  dte : Option ValueObj
  evStatus : Option EvStatusObj
deriving DecidableEq, Repr

/-- The canonical status record fields produced by the legacy-simple branch;
unset fields stay `none` (JS: undefined). -/
structure CanonMap where
  climate_control : Option Bool := none
  target_temperature : Option ℚ := none
  locked : Option Bool := none
  defrost : Option Bool := none
  engine : Option Bool := none
  closed_locked : Option Bool := none
  alarm_tire_pressure : Option Bool := none
  measure_battery_12V : Option ℚ := none
  measure_range : Option ℚ := none
  measure_battery : Option ℚ := none
  measure_power_charge : Option ℚ := none
  meter_power_fuel_economy : Option ℚ := none
  charge : Option Bool := none
  charge_target_slow : Option String := none
  charge_target_fast : Option String := none
  ev_charging_state : Option EvChargingState := none
  alarm_bat : Option Bool := none
  date : Option String := none
deriving DecidableEq, Repr

/-- Line 561: `sts.airCtrlOn ? convert.getTempFromCode(sts.airTemp.value) :
this.getCapabilityValue('target_temperature')`.  Accessing `.value` throws
when `airCtrlOn` is truthy but `airTemp` is undefined.  `getTemp` abstracts
the external `temp_convert` library, `prevTargetTemp` the stored capability
value. -/
def targetTempSimpleExc (getTemp : Option ℚ → Option ℚ) (prevTargetTemp : Option ℚ)
    (sts : LegacyStatus) : Except JsErr (Option ℚ) :=
  if truthyB sts.airCtrlOn then
    match sts.airTemp with
    | none => .error .typeError
    | some a => .ok (getTemp a.value)
  else .ok prevTargetTemp

/-- Line 565 with the `&&` short-circuit made explicit:
`Object.keys(sts.doorOpen)` throws only when the three earlier conjuncts are
truthy and `doorOpen` is undefined.  A falsy conjunct yields a falsy value,
modelled as `false`. -/
def closedLockedSimpleExc (sts : LegacyStatus) : Except JsErr Bool :=
  if !truthyB sts.doorLock then .ok false
  else if truthyB sts.trunkOpen then .ok false
  else if truthyB sts.hoodOpen then .ok false
  else
    match sts.doorOpen with
    | none => .error .typeError
    | some doors => .ok (doorsReduceClosed doors)

/-- Lines 576-577: `targetSOClist.find((list) => list.plugType === k)?.targetSOClevel.toString()`.
When an entry is found but its `targetSOClevel` is undefined, the plain
`.toString()` after the optional chain throws. -/
def socLevelToString (l : List SOCEntry) (k : Nat) : Except JsErr (Option String) :=
  match l.find? (fun e => e.plugType == some k) with
  | none => .ok none
  | some e =>
    match e.targetSOClevel with
    | none => .error .typeError
    | some v => .ok (some (toString v))

/-- Lines 574-578: the `if (targetSOClist)` block (an empty list is truthy). -/
def chargeTargetsSimpleExc (sts : LegacyStatus) :
    Except JsErr (Option String × Option String) :=
  match (sts.evStatus.bind fun e => e.reservChargeInfos).bind fun r => r.targetSOClist with
  | none => .ok (none, none)
  | some l =>
    match socLevelToString l 1 with
    | .error e => .error e
    | .ok slow =>
      match socLevelToString l 0 with
      | .error e => .error e
      | .ok fast => .ok (slow, fast)

/-- Line 568 with line 569: `map.measure_range = chain || sts?.dte?.value`,
then `=== undefined || < 0` is replaced by null (both modelled as `none`). -/
def measureRangeSimple (sts : LegacyStatus) : Option ℚ :=
  let drvRange := ((((sts.evStatus.bind fun e => e.drvDistance).bind
    fun l => l.head?).bind fun d => d.rangeByFuel).bind
    fun r => r.totalAvailableRange).bind fun v => v.value
  match jsOrQ drvRange (sts.dte.bind fun d => d.value) with
  | none => none
  | some v => if v < 0 then none else some v

/-- The normalizer `mapStatus` (device.js lines 529-532 and 547-582) on a payload of the
legacy-simple shape: `if (!status) return map` yields the empty record; a
payload whose `time` is falsy skips all three schema branches and also yields
the empty record; otherwise the `if (sts.time)` block runs, in source order,
with the reachable TypeErrors propagated through `Except`. -/
def mapStatusSimple (getTemp : Option ℚ → Option ℚ) (prevTargetTemp : Option ℚ)
    (batteryAlarmLevel evBatteryAlarmLevel : ℚ) (status : Option LegacyStatus) :
    Except JsErr CanonMap :=
  match status with
  | none => .ok {}
  | some sts =>
    if truthyStr sts.time then
      match targetTempSimpleExc getTemp prevTargetTemp sts with
      | .error e => .error e
      | .ok targetTemperature =>
        match closedLockedSimpleExc sts with
        | .error e => .error e
        | .ok closedLocked =>
          match chargeTargetsSimpleExc sts with
          | .error e => .error e
          | .ok targets =>
            .ok {
              climate_control := sts.airCtrlOn
              target_temperature := targetTemperature
              locked := sts.doorLock
              defrost := sts.defrost
              engine := sts.engine
              closed_locked := some closedLocked
              alarm_tire_pressure :=
                some (truthyQ (sts.tirePressureLamp.bind fun t => t.tirePressureLampAll))
              measure_battery_12V := sts.battery.bind fun b => b.batSoc
              measure_range := measureRangeSimple sts
              measure_battery := sts.evStatus.bind fun e => e.batteryStatus
              measure_power_charge := none
              meter_power_fuel_economy := none
              charge := sts.evStatus.bind fun e => e.batteryCharge
              charge_target_slow := targets.1
              charge_target_fast := targets.2
              ev_charging_state :=
                some (evChargeStateLegacy (sts.evStatus.bind fun e => e.batteryPlugin)
                  (truthyB (sts.evStatus.bind fun e => e.batteryCharge)))
              alarm_bat :=
                some (ltOptQ (sts.battery.bind fun b => b.batSoc) batteryAlarmLevel
                  || ltOptQ (sts.evStatus.bind fun e => e.batteryStatus) evBatteryAlarmLevel)
              date := sts.time }
    else .ok {}

/-- Bool-valued side conditions under which the legacy-simple branch cannot
throw: climate off or `airTemp` present. -/
def airTempOk (sts : LegacyStatus) : Bool := !truthyB sts.airCtrlOn || sts.airTemp.isSome

/-- Side condition `doorOpen` present (sufficient for line 565 not to throw). -/
def doorOpenOk (sts : LegacyStatus) : Bool := sts.doorOpen.isSome

/-- Every entry of a present `targetSOClist` carries a `targetSOClevel`. -/
def socListOk (sts : LegacyStatus) : Bool :=
  match (sts.evStatus.bind fun e => e.reservChargeInfos).bind fun r => r.targetSOClist with
  | none => true
  | some l => l.all fun e => e.targetSOClevel.isSome

/-- The payload refuting claim C9: legacy-simple shape, door lock engaged,
trunk and hood closed, but `doorOpen` missing, so line 565 throws. -/
def c9cex : LegacyStatus :=
  { time := some "20240101", airCtrlOn := some false, airTemp := none,
    doorLock := some true, defrost := some false, engine := some false,
    trunkOpen := some false, hoodOpen := some false, doorOpen := none,
    tirePressureLamp := none, battery := none, dte := none, evStatus := none }

/-- A well-formed legacy-simple payload used by the C9 witness. -/
def c9ok : LegacyStatus :=
  { time := some "20240101", airCtrlOn := some true, airTemp := some ⟨some 10⟩,
    doorLock := some true, defrost := some false, engine := some false,
    trunkOpen := some false, hoodOpen := some false, doorOpen := some [("frontLeft", 0)],
    tirePressureLamp := none, battery := some ⟨some 80⟩, dte := some ⟨some 400⟩,
    evStatus := none }

/-! ### Slot-table lemmas -/

theorem readSlot_writeSlot_self (l : List (Option QItem)) (i : Nat) (v : Option QItem) :
    readSlot (writeSlot l i v) i = v := by
  induction l generalizing i with
  | nil =>
    induction i with
    | zero => rfl
    | succ n ih => simpa [writeSlot, readSlot] using ih
  | cons h t ih =>
    cases i with
    | zero => rfl
    | succ n => simpa [writeSlot, readSlot] using ih n

theorem readSlot_writeSlot_ne (l : List (Option QItem)) (i j : Nat) (v : Option QItem)
    (h : i ≠ j) : readSlot (writeSlot l i v) j = readSlot l j := by
  induction l generalizing i j with
  | nil =>
    induction i generalizing j with
    | zero =>
      cases j with
      | zero => exact absurd rfl h
      | succ m => rfl
    | succ n ih =>
      cases j with
      | zero => rfl
      | succ m => simpa [writeSlot, readSlot] using ih m (by omega)
  | cons hd tl ih =>
    cases i with
    | zero =>
      cases j with
      | zero => exact absurd rfl h
      | succ m => rfl
    | succ n =>
      cases j with
      | zero => rfl
      | succ m => simpa [writeSlot, readSlot] using ih n m (by omega)

theorem enQueueQ_overflow (d : Bool) (x : QItem) (q : QueueState) (h : 10 ≤ q.tail) :
    enQueueQ d x q = q := by
  unfold enQueueQ
  rcases d with _ | _ <;> simp [h]

theorem contents_enQueueQ (q : QueueState) (x : QItem) (hht : q.head ≤ q.tail)
    (h10 : q.tail < 10) :
    contents (enQueueQ false x q) = contents q ++ [some x] := by
  unfold enQueueQ
  rw [if_neg (by simp), if_neg (by omega)]
  unfold contents QueueState.size
  simp only
  have hsz : q.tail + 1 - q.head = (q.tail - q.head) + 1 := by omega
  rw [hsz, List.range_succ, List.map_append, List.map_singleton]
  refine congrArg₂ (· ++ ·) ?_ ?_
  · refine List.map_congr_left ?_
    intro i hi
    have hi' : i < q.tail - q.head := List.mem_range.1 hi
    exact readSlot_writeSlot_ne _ _ _ _ (by omega)
  · have : q.head + (q.tail - q.head) = q.tail := by omega
    rw [this, readSlot_writeSlot_self]

theorem size_enQueueQ (q : QueueState) (x : QItem) (hht : q.head ≤ q.tail)
    (h10 : q.tail < 10) :
    (enQueueQ false x q).size = q.size + 1 := by
  unfold enQueueQ
  rw [if_neg (by simp), if_neg (by omega)]
  unfold QueueState.size
  simp only
  omega

theorem deQueueQ_fst (q : QueueState) (h : 0 < q.size) :
    (deQueueQ q).1 = readSlot q.queue q.head := by
  unfold QueueState.size at h
  unfold deQueueQ
  rw [if_neg (by omega)]
  by_cases h1 : q.head + 1 = q.tail
  · rw [if_pos h1]
  · rw [if_neg h1]

theorem contents_deQueueQ (q : QueueState) (h : 0 < q.size) :
    contents (deQueueQ q).2 = (contents q).drop 1 := by
  unfold QueueState.size at h
  unfold deQueueQ
  rw [if_neg (by omega)]
  by_cases h1 : q.head + 1 = q.tail
  · rw [if_pos h1]
    have h2 : q.tail - q.head = 1 := by omega
    unfold contents QueueState.size
    simp [h2, List.range_succ]
  · rw [if_neg h1]
    unfold contents QueueState.size
    dsimp only
    obtain ⟨m, hm⟩ : ∃ m, q.tail - q.head = m + 1 := ⟨q.tail - q.head - 1, by omega⟩
    have hm' : q.tail - (q.head + 1) = m := by omega
    rw [hm, hm', List.range_succ_eq_map, List.map_cons, List.drop_succ_cons, List.drop_zero,
      List.map_map]
    refine List.map_congr_left ?_
    intro i hi
    have hi' : i < m := List.mem_range.1 hi
    have hne2 : q.head ≠ q.head + 1 + i := by omega
    rw [readSlot_writeSlot_ne _ _ _ _ hne2]
    simp only [Function.comp]
    congr 1
    omega

theorem size_deQueueQ (q : QueueState) (h : 0 < q.size) :
    (deQueueQ q).2.size = q.size - 1 := by
  unfold QueueState.size at h ⊢
  unfold deQueueQ
  rw [if_neg (by omega)]
  by_cases h1 : q.head + 1 = q.tail
  · rw [if_pos h1]
    dsimp only
    omega
  · rw [if_neg h1]
    dsimp only
    omega

theorem wf_deQueueQ (q : QueueState) (h : QueueWF q) : QueueWF (deQueueQ q).2 := by
  obtain ⟨hht, hslots⟩ := h
  unfold deQueueQ
  by_cases h0 : q.tail - q.head = 0
  · rw [if_pos h0]
    exact ⟨hht, hslots⟩
  · rw [if_neg h0]
    by_cases h1 : q.head + 1 = q.tail
    · rw [if_pos h1]
      refine ⟨Nat.le_refl 0, ?_⟩
      intro i hi1 hi2
      dsimp only at hi1 hi2
      omega
    · rw [if_neg h1]
      refine ⟨by dsimp only; omega, ?_⟩
      intro i hi1 hi2
      dsimp only at hi1 hi2 ⊢
      rw [readSlot_writeSlot_ne _ _ _ _ (by omega)]
      exact hslots i hi1 (by omega)

theorem wf_enQueueQ (q : QueueState) (x : QItem) (h : QueueWF q) :
    QueueWF (enQueueQ false x q) := by
  obtain ⟨hht, hslots⟩ := h
  unfold enQueueQ
  rw [if_neg (by simp)]
  by_cases h10 : 10 ≤ q.tail
  · rw [if_pos h10]
    exact ⟨hht, hslots⟩
  · rw [if_neg h10]
    refine ⟨by dsimp only; omega, ?_⟩
    intro i hi1 hi2
    dsimp only at hi1 hi2 ⊢
    rcases Nat.lt_or_ge i q.tail with hlt | hge
    · rw [readSlot_writeSlot_ne _ _ _ _ (by omega)]
      exact hslots i hlt hi2
    · have : i = q.tail := by omega
      subst this
      rw [readSlot_writeSlot_self]
      rfl

theorem deQueueQ_isSome (q : QueueState) (hwf : QueueWF q) (h : 0 < q.size) :
    ∃ it, (deQueueQ q).1 = some it := by
  rw [deQueueQ_fst q h]
  have := hwf.2 q.head (by unfold QueueState.size at h; omega) (Nat.le_refl _)
  exact Option.isSome_iff_exists.1 this

/-- A fold that starts from `true` and only ever `||`s further values can
never leave `true`: the door reduce on line 565 is constant. -/
theorem doorsReduceClosed_const (doors : List (String × ℚ)) :
    doorsReduceClosed doors = true := by
  unfold doorsReduceClosed
  induction doors with
  | nil => rfl
  | cons d t ih =>
    rw [List.foldl_cons, Bool.true_or]
    exact ih

/-- Zero displacement never exceeds a positive threshold. -/
theorem absDiffGt_self (a : Option ℚ) (t : ℚ) (ht : 0 < t) : absDiffGt a a t = false := by
  rcases a with _ | x
  · rfl
  · unfold absDiffGt
    simp only [sub_self, abs_zero, decide_eq_false_iff_not]
    exact not_lt.2 ht.le

/-! ### Claim C2 -/

/-- C2 counterexample: after ten enqueues and one dequeue the queue size is
9 (< 10), yet a further non-disabled enqueue leaves the queue completely
unchanged, because the overflow guard `this.tail >= 10` tests `tail`, not
`tail - head` — refuting "while the queue size is less than 10, an enqueue
appends the command and increases size by 1". -/
theorem C2_queue_counterexample :
    c2afterDeq.size = 9 ∧ 9 < 10
    ∧ enQueueQ false lockSuccess c2afterDeq = c2afterDeq := by decide

/-- C2 (amended): dequeue is FIFO — it pops the slot at `head`, and the
pending contents lose exactly their first element — and an enqueue with
`tail < 10` appends the command at the end of the pending contents, growing
the size by 1; but the capacity guard is on `tail` (the number of enqueues
since the queue last drained), not on the size: any enqueue with
`tail ≥ 10` leaves the queue unchanged (logged, no error raised). -/
theorem C2_queue_fifo_amended (q : QueueState) (x : QItem) (d : Bool)
    (hht : q.head ≤ q.tail) :
    (q.tail < 10 →
      contents (enQueueQ false x q) = contents q ++ [some x]
      ∧ (enQueueQ false x q).size = q.size + 1)
    ∧ (10 ≤ q.tail → enQueueQ d x q = q)
    ∧ (0 < q.size →
      (deQueueQ q).1 = readSlot q.queue q.head
      ∧ contents (deQueueQ q).2 = (contents q).drop 1
      ∧ (deQueueQ q).2.size = q.size - 1) :=
  ⟨fun h10 => ⟨contents_enQueueQ q x hht h10, size_enQueueQ q x hht h10⟩,
   fun h10 => enQueueQ_overflow d x q h10,
   fun hs => ⟨deQueueQ_fst q hs, contents_deQueueQ q hs, size_deQueueQ q hs⟩⟩

/-- Witness for the amended C2 at a concrete one-slot queue. -/
theorem C2_queue_fifo_amended_witness :
    c2one.head ≤ c2one.tail
    ∧ ((c2one.tail < 10 →
      contents (enQueueQ false lockSuccess c2one) = contents c2one ++ [some lockSuccess]
      ∧ (enQueueQ false lockSuccess c2one).size = c2one.size + 1)
    ∧ (10 ≤ c2one.tail → enQueueQ false lockSuccess c2one = c2one)
    ∧ (0 < c2one.size →
      (deQueueQ c2one).1 = readSlot c2one.queue c2one.head
      ∧ contents (deQueueQ c2one).2 = (contents c2one).drop 1
      ∧ (deQueueQ c2one).2.size = c2one.size - 1)) :=
  ⟨by decide, C2_queue_fifo_amended c2one lockSuccess false (by decide)⟩

/-! ### Claim C4 -/

/-- C4: evaluating the odometer repair of device.js line 436 at a poll whose
mapped odometer is 0 and a previous record whose odometer is 12345: the
object spread of a number yields the empty object `{}`, not the previous
odometer value — the code does not implement the documented repair. -/
theorem C4_odometer_repair_eval :
    repairOdo (JsVal.num 0) (JsVal.num 12345) = JsVal.obj []
    ∧ repairOdo (JsVal.num 0) (JsVal.num 12345) ≠ JsVal.num 12345 := by decide

/-! ### Claim C5 -/

/-- C5: with the door lock engaged, trunk and hood closed, and the front-left
door reported open (value 1), line 565 still computes `closed_locked = true`:
the reduce starts from `true` and accumulates with `||`, so it returns `true`
for every door map and the open door is ignored. -/
theorem C5_closed_locked_eval :
    closedLockedLegacy true false false [("frontLeft", 1)] = true
    ∧ ∀ doors : List (String × ℚ), closedLockedLegacy true false false doors = true := by
  constructor
  · decide
  · intro doors
    unfold closedLockedLegacy
    rw [doorsReduceClosed_const doors]
    rfl

/-! ### Claim C6 -/

/-- C6: the EV charging-phase decoding table, identically in the legacy and
current schema paths: plugin-code 1 or 2 with the charging flag yields
`plugged_in_charging`; 1 or 2 without it is recoded by +2 and yields
`plugged_in`; plugin-code 0 yields `plugged_out` for either flag. -/
theorem C6_ev_charging_table :
    evChargeStateLegacy (some 1) true = .plugged_in_charging
    ∧ evChargeStateLegacy (some 2) true = .plugged_in_charging
    ∧ evChargeStateLegacy (some 1) false = .plugged_in
    ∧ evChargeStateLegacy (some 2) false = .plugged_in
    ∧ (∀ c : Bool, evChargeStateLegacy (some 0) c = .plugged_out)
    ∧ (∀ (p : Option Nat) (c : Bool), evChargeStateLegacy p c = evChargeStateCCS2 p c) :=
  ⟨by decide, by decide, by decide, by decide, by decide, fun _ _ => rfl⟩

/-! ### Claim C7 -/

/-- C7 counterexample: the current record has speed 0 (present, not absent)
and has moved a whole degree from the previous coordinates (1,1) to (2,2);
the claim's reading predicts moving = true, but the code's guard
`!info.measure_speed` treats the speed 0 as absent and returns false. -/
theorem C7_isMoving_counterexample :
    isMovingClaimSpec (some 1) (some 1) c7info = true
    ∧ isMoving (some 1) (some 1) c7info = false := by
  constructor
  · norm_num [isMovingClaimSpec, c7info, absDiffGt]
  · norm_num [isMoving, c7info, jsFalsyQ, truthyQ]

/-- C7 (amended): `isMoving` returns false when the previous latitude is
absent or zero (the previous longitude is not consulted by the guard) or the
current speed is absent or zero; otherwise it returns true exactly when
speed > 0 or the displacement from the previous coordinates exceeds 0.0001
degrees in either axis (a missing coordinate contributes no displacement). -/
theorem C7_isMoving_amended (prevLat prevLon : Option ℚ) (info : StatusInfo) :
    isMoving prevLat prevLon info = isMovingAmendedSpec prevLat prevLon info := by
  rcases info with ⟨sp, la, lo, en⟩
  rcases sp with _ | s
  · rcases prevLat with _ | plat <;>
      simp [isMoving, isMovingAmendedSpec, jsFalsyQ, truthyQ]
  · rcases prevLat with _ | plat
    · simp [isMoving, isMovingAmendedSpec, jsFalsyQ, truthyQ]
    · by_cases hs0 : s = 0
      · simp [isMoving, isMovingAmendedSpec, jsFalsyQ, truthyQ, hs0]
      · by_cases hp0 : plat = 0
        · simp [isMoving, isMovingAmendedSpec, jsFalsyQ, truthyQ, numGtZero, hs0, hp0]
        · simp [isMoving, isMovingAmendedSpec, jsFalsyQ, truthyQ, numGtZero, hs0, hp0]

/-! ### Claim C8 -/

/-- C8 counterexample: a canonical record with positive speed and unchanged
coordinates, fed through the classifier with itself as previous state, is
reported as moving — refuting "never reports moving". -/
theorem C8_self_transition_counterexample :
    isMoving c8rec.latitude c8rec.longitude c8rec = true := by
  norm_num [isMoving, c8rec, jsFalsyQ, truthyQ, numGtZero]

/-- C8 (amended): a canonical record fed back through the classifier with
itself as the previous location and as the stored park location never
reports newly-parked, and reports moving exactly when its own speed is
present and positive and its latitude is present and nonzero (so only a
snapshot taken while actually driving self-reports as moving). -/
theorem C8_self_transition_amended (rec : StatusInfo) :
    isParking rec.latitude rec.longitude rec = false
    ∧ isMoving rec.latitude rec.longitude rec
      = (numGtZero rec.measure_speed && !jsFalsyQ rec.latitude) := by
  rcases rec with ⟨sp, la, lo, en⟩
  constructor
  · show isParking la lo ⟨sp, la, lo, en⟩ = false
    unfold isParking
    rcases en with _ | _
    · dsimp only
      rw [if_neg (by simp)]
      rw [absDiffGt_self la _ (by norm_num), absDiffGt_self lo _ (by norm_num)]
      rfl
    · rfl
  · show isMoving la lo ⟨sp, la, lo, en⟩
      = (numGtZero sp && !jsFalsyQ la)
    unfold isMoving
    dsimp only
    rw [absDiffGt_self la _ (by norm_num), absDiffGt_self lo _ (by norm_num)]
    rcases sp with _ | s
    · simp [jsFalsyQ, truthyQ, numGtZero]
    · rcases la with _ | x
      · simp [jsFalsyQ, truthyQ, numGtZero]
      · by_cases hs0 : s = 0
        · norm_num [jsFalsyQ, truthyQ, numGtZero, hs0]
        · by_cases hx0 : x = 0
          · norm_num [jsFalsyQ, truthyQ, numGtZero, hx0]
          · norm_num [jsFalsyQ, truthyQ, numGtZero, hs0, hx0]

/-! ### Loop lemmas for runQueue -/

theorem runQueueFuel_cont (n : Nat) (s : DevState) (h : (runQueueStep s).2 = true) :
    runQueueFuel (n + 1) s = runQueueFuel n (runQueueStep s).1 := by
  rcases hq : runQueueStep s with ⟨s', c⟩
  rw [hq] at h
  simp only at h
  subst h
  simp [runQueueFuel, hq]

theorem runQueueFuel_stop (n : Nat) (s : DevState) (h : (runQueueStep s).2 = false) :
    runQueueFuel (n + 1) s = (runQueueStep s).1 := by
  rcases hq : runQueueStep s with ⟨s', c⟩
  rw [hq] at h
  simp only at h
  subst h
  simp [runQueueFuel, hq]

/-- An executed item (vehicle session present) always re-invokes the loop,
leaves exactly the dequeued remainder in the queue, keeps the session, and
records the item's command as the last command. -/
theorem runQueueStep_item (s : DevState) (item : QItem) (hv : s.hasVehicle = true)
    (hd : (deQueueQ s.qs).1 = some item) :
    (runQueueStep s).2 = true
    ∧ (runQueueStep s).1.qs = (deQueueQ s.qs).2
    ∧ (runQueueStep s).1.hasVehicle = true
    ∧ (runQueueStep s).1.lastCommand = some item.command := by
  rcases hq : deQueueQ s.qs with ⟨o, q2⟩
  rw [hq] at hd
  simp only at hd
  subst hd
  cases hr : item.result <;> simp [runQueueStep, hq, hv, hr]

/-- An empty pass whose last executed command was the poll halts the loop and
leaves the queue untouched. -/
theorem runQueueStep_poll_stop (s : DevState) (hsz : s.qs.size = 0)
    (hlast : s.lastCommand = some "doPoll") :
    (runQueueStep s).2 = false ∧ (runQueueStep s).1.qs = s.qs := by
  have hq : deQueueQ s.qs = (none, s.qs) := by
    unfold deQueueQ
    rw [if_pos (by unfold QueueState.size at hsz; omega)]
  constructor <;> simp [runQueueStep, hq, hlast]

/-- The empty pass with the vehicle present, stopping case: when the
auto-poll is suppressed or dropped, the loop halts with the queue unchanged. -/
theorem runQueue_drain_zero (s : DevState) (hv : s.hasVehicle = true)
    (hht : s.qs.head ≤ s.qs.tail) (hsz : s.qs.size = 0) :
    (runQueueFuel 3 s).qs.size = 0 := by
  unfold QueueState.size at hsz
  have heq : s.qs.head = s.qs.tail := by omega
  have hq : deQueueQ s.qs = (none, s.qs) := by
    unfold deQueueQ
    rw [if_pos hsz]
  by_cases hpoll : s.lastCommand = some "doPoll"
  · have hstop := runQueueStep_poll_stop s (by unfold QueueState.size; omega) hpoll
    rw [runQueueFuel_stop 2 s hstop.1, hstop.2]
    unfold QueueState.size
    omega
  · by_cases hsc : s.lastCommand = some "stopCharge"
    · rw [runQueueFuel_stop 2 s (by simp [runQueueStep, hq, hpoll, hsc])]
      have h1 : (runQueueStep s).1.qs = s.qs := by simp [runQueueStep, hq, hpoll, hsc]
      rw [h1]
      unfold QueueState.size
      omega
    · by_cases hfix : s.fixChargerRecent = true
      · rw [runQueueFuel_stop 2 s (by simp [runQueueStep, hq, hpoll, hsc, hfix])]
        have h1 : (runQueueStep s).1.qs = s.qs := by
          simp [runQueueStep, hq, hpoll, hsc, hfix]
        rw [h1]
        unfold QueueState.size
        omega
      · by_cases hdis : s.disabled = true
        · rw [runQueueFuel_stop 2 s (by simp [runQueueStep, hq, hpoll, hsc, hfix, hdis])]
          have h1 : (runQueueStep s).1.qs = s.qs := by
            simp [runQueueStep, hq, hpoll, hsc, hfix, hdis]
          rw [h1]
          unfold QueueState.size
          omega
        · by_cases h10 : 10 ≤ s.qs.tail
          · rw [runQueueFuel_stop 2 s
              (by simp [runQueueStep, hq, hpoll, hsc, hfix, hdis, h10])]
            have h1 : (runQueueStep s).1.qs = s.qs := by
              simp [runQueueStep, hq, hpoll, hsc, hfix, hdis, h10]
            rw [h1]
            unfold QueueState.size
            omega
          · -- the auto-poll is enqueued, executed, and the loop then stops
            rw [runQueueFuel_cont 2 s
              (by simp [runQueueStep, hq, hpoll, hsc, hfix, hdis, h10])]
            have hs2qs : (runQueueStep s).1.qs
                = enQueueQ false ⟨"doPoll", s.pollOutcome⟩ s.qs := by
              simp [runQueueStep, hq, hpoll, hsc, hfix, hdis, h10]
            have hs2v : (runQueueStep s).1.hasVehicle = true := by
              simp [runQueueStep, hq, hpoll, hsc, hfix, hdis, h10, hv]
            have hqE : enQueueQ false ⟨"doPoll", s.pollOutcome⟩ s.qs
                = { queue := writeSlot s.qs.queue s.qs.tail (some ⟨"doPoll", s.pollOutcome⟩),
                    head := s.qs.head, tail := s.qs.tail + 1 } := by
              unfold enQueueQ
              rw [if_neg (by simp), if_neg h10]
            have hfst : (deQueueQ (enQueueQ false ⟨"doPoll", s.pollOutcome⟩ s.qs)).1
                = some ⟨"doPoll", s.pollOutcome⟩ := by
              rw [hqE, deQueueQ_fst _ (by unfold QueueState.size; dsimp only; omega)]
              dsimp only
              rw [heq, readSlot_writeSlot_self]
            have hsz2 : (deQueueQ (enQueueQ false ⟨"doPoll", s.pollOutcome⟩ s.qs)).2.size = 0 := by
              rw [hqE, size_deQueueQ _ (by unfold QueueState.size; dsimp only; omega)]
              unfold QueueState.size
              dsimp only
              omega
            have hstep2 := runQueueStep_item (runQueueStep s).1 ⟨"doPoll", s.pollOutcome⟩ hs2v
              (by rw [hs2qs]; exact hfst)
            rw [runQueueFuel_cont 1 _ hstep2.1]
            have hs3qs : (runQueueStep (runQueueStep s).1).1.qs.size = 0 := by
              rw [hstep2.2.1, hs2qs]
              exact hsz2
            have hs3last : (runQueueStep (runQueueStep s).1).1.lastCommand = some "doPoll" :=
              hstep2.2.2.2
            have hstop3 := runQueueStep_poll_stop _ hs3qs hs3last
            rw [runQueueFuel_stop 0 _ hstop3.1, hstop3.2]
            exact hs3qs

/-- With a vehicle session, the loop drains the whole queue within
`size + 3` passes, whatever the per-command outcomes. -/
theorem runQueue_drains (n : Nat) : ∀ s : DevState, s.hasVehicle = true →
    QueueWF s.qs → s.qs.size = n → (runQueueFuel (n + 3) s).qs.size = 0 := by
  induction n with
  | zero =>
    intro s hv hwf hsz
    exact runQueue_drain_zero s hv hwf.1 hsz
  | succ n ih =>
    intro s hv hwf hsz
    obtain ⟨item, hitem⟩ := deQueueQ_isSome s.qs hwf (by omega)
    have hstep := runQueueStep_item s item hv hitem
    rw [runQueueFuel_cont (n + 3) s hstep.1]
    apply ih
    · exact hstep.2.2.1
    · rw [hstep.2.1]
      exact wf_deQueueQ s.qs hwf
    · rw [hstep.2.1, size_deQueueQ s.qs (by omega)]
      omega

/-! ### Claim C1 -/

/-- C1: per-item watchdog accounting of the runQueue loop: an item attempted
with no vehicle session costs exactly 2 watchdog points; an unrecovered
failure whose error does not match the retry codes costs exactly 1; any
success — direct or via the one-shot retry — resets the watchdog to 6
regardless of its prior value. -/
theorem C1_watchdog_penalties (s : DevState) (item : QItem)
    (hd : (deQueueQ s.qs).1 = some item) :
    (s.hasVehicle = false →
      (runQueueStep s).1.watchDogCounter = s.watchDogCounter - 2)
    ∧ (s.hasVehicle = true → item.result = .failOther →
      (runQueueStep s).1.watchDogCounter = s.watchDogCounter - 1)
    ∧ (s.hasVehicle = true →
      (item.result = .success ∨ item.result = .failRetryableOk) →
      (runQueueStep s).1.watchDogCounter = 6) := by
  rcases hq : deQueueQ s.qs with ⟨o, q2⟩
  rw [hq] at hd
  simp only at hd
  subst hd
  refine ⟨?_, ?_, ?_⟩
  · intro hv
    simp [runQueueStep, hq, hv]
  · intro hv hr
    simp [runQueueStep, hq, hv, hr]
  · intro hv hr
    rcases hr with hr | hr <;> simp [runQueueStep, hq, hv, hr]

/-- Witness for C1: a one-command queue with a session; the successful `lock`
resets the watchdog to 6. -/
theorem C1_watchdog_penalties_witness :
    (deQueueQ c1state.qs).1 = some lockSuccess
    ∧ c1state.hasVehicle = true
    ∧ (lockSuccess.result = .success ∨ lockSuccess.result = .failRetryableOk)
    ∧ (runQueueStep c1state).1.watchDogCounter = 6 :=
  ⟨by decide, rfl, Or.inl rfl,
    (C1_watchdog_penalties c1state lockSuccess (by decide)).2.2 rfl (Or.inl rfl)⟩

/-! ### Claim C3 -/

/-- C3 counterexample: two pending commands and no vehicle session.  The head
command's session-absent failure throws out of the loop (device.js line 161
to the catch on lines 219-223): the watchdog drops by 2 and the loop stops
with `queueRunning = false`, while the second command (`doPoll`) is still
sitting unexecuted in the queue — refuting "the consumption loop still
proceeds to execute the remaining queued commands". -/
theorem C3_abort_counterexample :
    (runQueueFuel 10 c3state).queueRunning = false
    ∧ (runQueueFuel 10 c3state).qs.size = 1
    ∧ readSlot (runQueueFuel 10 c3state).qs.queue (runQueueFuel 10 c3state).qs.head
      = some ⟨"doPoll", .success⟩
    ∧ (runQueueFuel 10 c3state).watchDogCounter = 4 := by decide

/-- C3 (amended): failure locality holds for executed commands — with a
vehicle session the loop drains the entire queue within `size + 3` passes no
matter how the individual commands fail — but a session-absent attempt aborts
the consumption loop: it costs 2 watchdog points, stops the loop, and leaves
the remaining commands pending in the queue (they run only once a later
enqueue restarts the loop); only watchdog exhaustion escalates to a
restart. -/
theorem C3_failure_locality_amended (s : DevState) :
    (s.hasVehicle = true → QueueWF s.qs →
      (runQueueFuel (s.qs.size + 3) s).qs.size = 0)
    ∧ (s.hasVehicle = false → QueueWF s.qs → 0 < s.qs.size →
      (runQueueFuel (s.qs.size + 3) s).queueRunning = false
      ∧ (runQueueFuel (s.qs.size + 3) s).busy = false
      ∧ (runQueueFuel (s.qs.size + 3) s).watchDogCounter = s.watchDogCounter - 2
      ∧ (runQueueFuel (s.qs.size + 3) s).qs.size = s.qs.size - 1) := by
  constructor
  · intro hv hwf
    exact runQueue_drains s.qs.size s hv hwf rfl
  · intro hv hwf hs
    obtain ⟨item, hitem⟩ := deQueueQ_isSome s.qs hwf hs
    have hstop : (runQueueStep s).2 = false
        ∧ (runQueueStep s).1.queueRunning = false
        ∧ (runQueueStep s).1.busy = false
        ∧ (runQueueStep s).1.watchDogCounter = s.watchDogCounter - 2
        ∧ (runQueueStep s).1.qs = (deQueueQ s.qs).2 := by
      rcases hq : deQueueQ s.qs with ⟨o, q2⟩
      rw [hq] at hitem
      simp only at hitem
      subst hitem
      simp [runQueueStep, hq, hv]
    obtain ⟨m, hm⟩ : ∃ m, s.qs.size + 3 = m + 1 := ⟨s.qs.size + 2, by omega⟩
    rw [hm, runQueueFuel_stop m s hstop.1]
    exact ⟨hstop.2.1, hstop.2.2.1, hstop.2.2.2.1,
      by rw [hstop.2.2.2.2, size_deQueueQ s.qs hs]⟩

/-- Witness for the amended C3: a session-present state whose two commands
both fail still drains, and the session-absent state stops after the first
item with the scripted effects. -/
theorem C3_failure_locality_amended_witness :
    (c3stateOk.hasVehicle = true ∧ QueueWF c3stateOk.qs
      ∧ (runQueueFuel (c3stateOk.qs.size + 3) c3stateOk).qs.size = 0)
    ∧ (c3state.hasVehicle = false ∧ QueueWF c3state.qs ∧ 0 < c3state.qs.size
      ∧ (runQueueFuel (c3state.qs.size + 3) c3state).queueRunning = false
      ∧ (runQueueFuel (c3state.qs.size + 3) c3state).busy = false
      ∧ (runQueueFuel (c3state.qs.size + 3) c3state).watchDogCounter
          = c3state.watchDogCounter - 2
      ∧ (runQueueFuel (c3state.qs.size + 3) c3state).qs.size = c3state.qs.size - 1) :=
  ⟨⟨rfl, by decide, (C3_failure_locality_amended c3stateOk).1 rfl (by decide)⟩,
   ⟨rfl, by decide, by decide,
    (C3_failure_locality_amended c3state).2 rfl (by decide) (by decide)⟩⟩

/-! ### Claim C9 -/

/-- When every found targetSOC entry carries a level, lines 576-577 cannot
throw. -/
theorem socLevelToString_ok (l : List SOCEntry) (k : Nat)
    (h : ∀ e ∈ l, e.targetSOClevel.isSome = true) :
    ∃ o, socLevelToString l k = .ok o := by
  unfold socLevelToString
  rcases hf : l.find? (fun e => e.plugType == some k) with _ | e
  · rw [hf]
    exact ⟨none, rfl⟩
  · have hmem := List.mem_of_find?_eq_some hf
    have hsome := h e hmem
    rcases he : e.targetSOClevel with _ | v
    · rw [he] at hsome
      simp at hsome
    · refine ⟨some (toString v), ?_⟩
      rw [hf]
      simp only [he]

theorem chargeTargets_ok (sts : LegacyStatus) (h3 : socListOk sts = true) :
    ∃ tg, chargeTargetsSimpleExc sts = .ok tg := by
  unfold chargeTargetsSimpleExc
  unfold socListOk at h3
  generalize hl : ((sts.evStatus.bind fun e => e.reservChargeInfos).bind
    fun r => r.targetSOClist) = tlist at h3 ⊢
  rcases tlist with _ | l
  · exact ⟨(none, none), rfl⟩
  · have hall : ∀ e ∈ l, e.targetSOClevel.isSome = true := by
      simp only at h3
      intro e he
      simpa using List.all_eq_true.1 h3 e he
    obtain ⟨s1, hs1⟩ := socLevelToString_ok l 1 hall
    obtain ⟨s0, hs0⟩ := socLevelToString_ok l 0 hall
    refine ⟨(s1, s0), ?_⟩
    simp only [hs1, hs0]

theorem targetTemp_ok (getTemp : Option ℚ → Option ℚ) (pt : Option ℚ)
    (sts : LegacyStatus) (h1 : airTempOk sts = true) :
    ∃ tt, targetTempSimpleExc getTemp pt sts = .ok tt := by
  unfold targetTempSimpleExc
  unfold airTempOk at h1
  by_cases ha : truthyB sts.airCtrlOn = true
  · rw [if_pos ha]
    rcases hat : sts.airTemp with _ | a
    · rw [ha, hat] at h1
      simp at h1
    · exact ⟨getTemp a.value, rfl⟩
  · rw [if_neg ha]
    exact ⟨pt, rfl⟩

theorem closedLocked_ok (sts : LegacyStatus) (h2 : doorOpenOk sts = true) :
    ∃ cl, closedLockedSimpleExc sts = .ok cl := by
  unfold closedLockedSimpleExc
  unfold doorOpenOk at h2
  by_cases hd : (!truthyB sts.doorLock) = true
  · rw [if_pos hd]
    exact ⟨false, rfl⟩
  · rw [if_neg hd]
    by_cases ht : truthyB sts.trunkOpen = true
    · rw [if_pos ht]
      exact ⟨false, rfl⟩
    · rw [if_neg ht]
      by_cases hh : truthyB sts.hoodOpen = true
      · rw [if_pos hh]
        exact ⟨false, rfl⟩
      · rw [if_neg hh]
        rcases hdo : sts.doorOpen with _ | doors
        · rw [hdo] at h2
          simp at h2
        · exact ⟨doorsReduceClosed doors, rfl⟩

/-- C9 counterexample: the legacy-simple payload `c9cex` (door lock engaged,
trunk and hood closed, `doorOpen` absent) makes the normalizer throw a
TypeError at line 565 (`Object.keys(undefined)`), so `mapStatus` is not total
on payloads with missing sub-fields. -/
theorem C9_mapStatus_counterexample :
    mapStatusSimple (fun v => v) none 0 0 (some c9cex) = .error .typeError := rfl

/-- C9 (amended): an absent raw input always yields the empty record, and on
legacy-simple payloads the normalizer is total only under side conditions:
climate off or `airTemp` present, `doorOpen` present, and every entry of a
present `targetSOClist` carrying a level; under those conditions no
error branch is reachable. -/
theorem C9_mapStatus_total_amended (getTemp : Option ℚ → Option ℚ) (pt : Option ℚ)
    (b e : ℚ) (sts : LegacyStatus) (h1 : airTempOk sts = true)
    (h2 : doorOpenOk sts = true) (h3 : socListOk sts = true) :
    mapStatusSimple getTemp pt b e none = Except.ok {}
    ∧ ∃ m : CanonMap, mapStatusSimple getTemp pt b e (some sts) = Except.ok m := by
  refine ⟨rfl, ?_⟩
  by_cases ht : truthyStr sts.time = true
  · obtain ⟨tt, htt⟩ := targetTemp_ok getTemp pt sts h1
    obtain ⟨cl, hcl⟩ := closedLocked_ok sts h2
    obtain ⟨tg, htg⟩ := chargeTargets_ok sts h3
    simp only [mapStatusSimple, ht, htt, hcl, htg, if_true]
    exact ⟨_, rfl⟩
  · simp only [mapStatusSimple, if_neg ht]
    exact ⟨{}, rfl⟩

/-- Witness for the amended C9 at the concrete well-formed payload `c9ok`. -/
theorem C9_mapStatus_total_amended_witness :
    airTempOk c9ok = true ∧ doorOpenOk c9ok = true ∧ socListOk c9ok = true
    ∧ (mapStatusSimple (fun v => v) none 0 0 none = Except.ok {}
      ∧ ∃ m : CanonMap, mapStatusSimple (fun v => v) none 0 0 (some c9ok) = Except.ok m) :=
  ⟨rfl, rfl, rfl,
    C9_mapStatus_total_amended (fun v => v) none 0 0 c9ok rfl rfl rfl⟩

/-! ### Claim C10 -/

/-- C10: in both the legacy-full and current schema paths, a reported speed
above 255 is normalized to 0 and every other reported speed (including an
absent one) passes through unchanged. -/
theorem C10_speed_normalization :
    (∀ v : ℚ, mapSpeedLegacy (some v) = if v > 255 then some 0 else some v)
    ∧ mapSpeedLegacy none = none
    ∧ (∀ s : Option ℚ, mapSpeedCCS2 s = mapSpeedLegacy s) := by
  refine ⟨?_, rfl, fun s => rfl⟩
  intro v
  unfold mapSpeedLegacy gtOptQ
  by_cases h : v > 255
  · simp [h]
  · simp [h]

end CarDevice
